import Mathlib

/-
Verification development for the UDF binary sensor-log decoder
(flask_app/UDFDecoder: UDFDecoder.py, Schema.py, DataTypes.py).

The Python sources are shallowly embedded below.  Conventions:
* byte blobs are `List Nat` (each entry a byte value 0..255);
* fallible Python code is embedded as `Except PyErr _`; a raised Python
  exception becomes `Except.error`;
* Python floats are modelled by exact rationals `ℚ` (the numeric literals
  appearing in the claims - "0.1", "1.0" and small integers - are handled
  exactly; IEEE-754 rounding is not modelled, and raw little-endian float
  fields are kept as uninterpreted bit patterns);
* Python str.split is re-implemented over `List Char` (`pySplit`) with the
  same semantics as CPython for a non-empty separator;
* the UTF-8 decode of the header is modelled for the ASCII subset: a byte
  at or above 0x80 is a decode error.  Every input appearing in the claims
  is pure ASCII.
-/

/-- Python exception kinds raised by the embedded code paths. -/
inductive PyErr where
  | attributeError (attr : String)
  | typeError (msg : String)
  | valueError (msg : String)
  | indexError
  | keyError
  | structError
  | unicodeDecodeError
  | exception (msg : String)
  deriving DecidableEq, Repr

deriving instance DecidableEq for Except

set_option allowUnsafeReducibility true in
attribute [semireducible] Rat.mul Rat.inv Rat.add Rat.sub

/-- Dynamically typed Python values as they flow through the decoder:
integers, floats (exact rationals), strings, byte strings, lists of strings
(the v1.1 properties field), and raw bit patterns of wire floats. -/
inductive PyVal where
  | int (i : Int)
  | float (q : ℚ)
  | str (s : String)
  | bytes (bs : List Nat)
  | strList (xs : List String)
  | floatBits (bits : Nat)
  deriving DecidableEq, Repr

/-- Does the list start with the given pattern? -/
def startsWithL : List Char → List Char → Bool
  | _, [] => true
  | [], _ :: _ => false
  | c :: cs, p :: ps => if c = p then startsWithL cs ps else false

/-- Fuel-driven worker for `pySplit`: scans left to right, splitting on each
occurrence of the (non-empty) pattern `p`, like CPython str.split(sep).
With fuel at least the length of the scanned list the fuel-0 case is
unreachable. -/
def splitGo (p : List Char) : Nat → List Char → List Char → List (List Char)
  | _, [], acc => [acc.reverse]
  | 0, cs, acc => [acc.reverse ++ cs]
  | fuel + 1, c :: cs, acc =>
    if startsWithL (c :: cs) p then
      acc.reverse :: splitGo p fuel ((c :: cs).drop p.length) []
    else
      splitGo p fuel cs (c :: acc)

/-- Python `s.split(sep)` for a non-empty separator. -/
def pySplit (s : String) (sep : String) : List String :=
  (splitGo sep.data s.data.length s.data []).map (fun l => ⟨l⟩)

/-- Python list indexing `l[i]` for a non-negative index: IndexError when out
of range. -/
def pyIndex {α : Type} (l : List α) (i : Nat) : Except PyErr α :=
  match l.get? i with
  | some v => .ok v
  | none => .error .indexError

/-- Python `list.index(x)`: position of the first occurrence.  In the decoder
it is only called on members, so the absent case (a Python ValueError) is
collapsed to the list length, which the following list indexing turns into
an error as well. -/
def listIndexOf (l : List String) (x : String) : Nat :=
  l.findIdx (fun y => y = x)

/-- Python `str.strip()` with no argument: remove leading and trailing
whitespace.  Implemented structurally over the character list so that it
reduces inside the kernel. -/
def pyStrip (s : String) : String :=
  ⟨(((s.data.dropWhile Char.isWhitespace).reverse).dropWhile
      Char.isWhitespace).reverse⟩

/-- Numeric value of a decimal digit character. -/
def digitVal (c : Char) : Nat := c.toNat - 48

/-- Value of a non-empty all-digit character list read in base 10. -/
def digitsVal (cs : List Char) : Nat :=
  cs.foldl (fun a c => 10 * a + digitVal c) 0

/-- Python `int(s)` for base-10 strings: surrounding whitespace is trimmed, an
optional single sign is allowed, the rest must be digits.  (Underscored
literals are not modelled; none occur in UDF headers.) -/
def pyInt (s : String) : Except PyErr Int :=
  match (pyStrip s).data with
  | [] => .error (.valueError s)
  | c :: cs =>
    if c = '-' then
      if cs ≠ [] ∧ cs.all Char.isDigit then .ok (-(digitsVal cs : Int))
      else .error (.valueError s)
    else if c = '+' then
      if cs ≠ [] ∧ cs.all Char.isDigit then .ok ((digitsVal cs : Int))
      else .error (.valueError s)
    else if (c :: cs).all Char.isDigit then .ok ((digitsVal (c :: cs) : Int))
    else .error (.valueError s)

/-- Worker for `pyFloat`: digits with at most one decimal point, at least one
digit overall. -/
def pyFloatDigits (cs : List Char) : Except PyErr ℚ :=
  match (cs.splitOn '.') with
  | [ip] =>
    if ip ≠ [] ∧ ip.all Char.isDigit then .ok ((digitsVal ip : ℚ))
    else .error (.valueError ⟨cs⟩)
  | [ip, fp] =>
    if (ip ++ fp) ≠ [] ∧ ip.all Char.isDigit ∧ fp.all Char.isDigit then
      .ok ((digitsVal ip : ℚ) + (digitsVal fp : ℚ) / ((10 : ℚ) ^ fp.length))
    else .error (.valueError ⟨cs⟩)
  | _ => .error (.valueError ⟨cs⟩)

/-- Python `float(s)` restricted to plain decimal notation (optional sign,
digits, at most one decimal point).  Exponent, infinity and NaN spellings are
not modelled; header fields in the claims use plain decimals only.  The value
is exact as a rational; IEEE rounding is not modelled. -/
def pyFloat (s : String) : Except PyErr ℚ :=
  match (pyStrip s).data with
  | [] => .error (.valueError s)
  | c :: cs =>
    if c = '-' then (pyFloatDigits cs).map (fun q => -q)
    else if c = '+' then pyFloatDigits cs
    else pyFloatDigits (c :: cs)

/-- Little-endian value of a byte list. -/
def leNat : List Nat → Nat
  | [] => 0
  | b :: bs => b + 256 * leNat bs

/-- Signed reinterpretation of a `w`-byte little-endian value. -/
def toSigned (w : Nat) (n : Nat) : Int :=
  if n < 2 ^ (8 * w - 1) then (n : Int) else (n : Int) - (2 ^ (8 * w) : Nat)

/-- Decode of the header bytes, modelled for the ASCII subset of UTF-8: any
byte at or above 0x80 raises.  All header texts in the claims are ASCII. -/
def asciiDecode : List Nat → Except PyErr String
  | [] => .ok ""
  | b :: bs =>
    if b < 128 then
      match asciiDecode bs with
      | .ok s => .ok ⟨Char.ofNat b :: s.data⟩
      | .error e => .error e
    else .error .unicodeDecodeError

/-- ASCII bytes of a string, for writing concrete test blobs. -/
def asciiBytes (s : String) : List Nat := s.data.map Char.toNat

/-- Python `bytes.find(pattern)` returning the first match position, `none`
for no match. -/
def bytesFind (blob : List Nat) (pat : List Nat) : Option Nat :=
  bytesFindAux blob pat 0
where
  bytesFindAux : List Nat → List Nat → Nat → Option Nat
    | [], p, _ => if p = [] then some 0 else none
    | c :: rest, p, i =>
      if (c :: rest).take p.length = p then some i
      else bytesFindAux rest p (i + 1)

/-- Table: the DataTypes.py registry, entry = (UDF mnemonic, struct-library
format, pyarrow logical type). -/
inductive PaType where
  | int8 | uint8 | int16 | uint16 | int32 | uint32 | int64 | uint64
  | float32 | float64 | utf8
  deriving DecidableEq, Repr

/-- The registry built at the bottom of DataTypes.py, in source order. -/
def data_types : List (String × String × PaType) :=
  [ ("s8", "b", .int8), ("u8", "B", .uint8),
    ("s16", "h", .int16), ("u16", "H", .uint16),
    ("s32", "i", .int32), ("u24", "I", .uint32), ("u32", "I", .uint32),
    ("s64", "q", .int64), ("u64", "Q", .uint64),
    ("f", "f", .float32), ("d", "d", .float64),
    ("s", "s", .utf8), ("st", "s", .utf8) ]

/-- Schema.py after its refactor: the class holds one axis of one sensor.
The `index`/tag field was removed from `__init__` (it survives only in a
commented-out line), `_values` and `_timeStampIndices` became dicts from a
key to a list.  Fields that receive whatever the caller passes are typed
`PyVal`. -/
structure Schema where
  name : String
  sizeInBytes : PyVal
  eventSize : PyVal
  dataType : PyVal
  axisName : PyVal
  scalingFactor : PyVal
  values : List (PyVal × List PyVal)
  timeStampIndices : List (PyVal × List PyVal)
  samplingRate : PyVal
  properties : PyVal
  deriving DecidableEq, Repr

/-- Schema.__init__: eight positional parameters, `name.strip()` on the first.
Calling str.strip on a non-string (UDFDecoder passes the tag as an int here)
raises AttributeError, so construction fails for every non-string name. -/
def Schema.init (name size_in_bytes event_size data_type axis_name
    scaling_factor sampling_rate properties : PyVal) : Except PyErr Schema :=
  match name with
  | .str s =>
    .ok { name := pyStrip s, sizeInBytes := size_in_bytes, eventSize := event_size,
          dataType := data_type, axisName := axis_name,
          scalingFactor := scaling_factor, values := [], timeStampIndices := [],
          samplingRate := sampling_rate, properties := properties }
  | _ => .error (.attributeError "strip")

/-- Insert-or-append of Python `dict.setdefault(key, []).append(v)`. -/
def setdefaultAppend (d : List (PyVal × List PyVal)) (key v : PyVal) :
    List (PyVal × List PyVal) :=
  if d.any (fun p => p.1 = key) then
    d.map (fun p => if p.1 = key then (p.1, p.2 ++ [v]) else p)
  else d ++ [(key, [v])]

/-- Schema.add_value: requires a key and a value (two arguments). -/
def Schema.add_value (s : Schema) (key value : PyVal) : Schema :=
  { s with values := setdefaultAppend s.values key value }

/-- Schema.add_timestamp_index: requires a key and an index (two args). -/
def Schema.add_timestamp_index (s : Schema) (key idx : PyVal) : Schema :=
  { s with timeStampIndices := setdefaultAppend s.timeStampIndices key idx }

/-- Schema.get_amount_of_values: `len` of the values dict, i.e. the number of
keys. -/
def Schema.get_amount_of_values (s : Schema) : Nat := s.values.length

/-- Schema.get_datatype_for_struct_lib: linear search of the registry by UDF
mnemonic; Python returns None (here `none`) when the mnemonic is unknown. -/
def Schema.get_datatype_for_struct_lib (s : Schema) : Option String :=
  (data_types.find? (fun d => match s.dataType with
    | .str u => d.1 = u
    | _ => false)).map (fun d => d.2.1)

/-- Schema.get_datatype_for_pyarrow_lib: same search, pyarrow type column. -/
def Schema.get_datatype_for_pyarrow_lib (s : Schema) : Option PaType :=
  (data_types.find? (fun d => match s.dataType with
    | .str u => d.1 = u
    | _ => false)).map (fun d => d.2.2)

/-- The error message raised by the body parser on an unrecognised byte
(UDFDecoder.py line 144). -/
def pyReadErrMsg : String := "Can\x27t read Values from file. File may not be readable!"

/-- Effectful map in list order, the embedding of a Python `for` loop that
builds one result per element and stops at the first exception. -/
def exMapM {α β : Type} (f : α → Except PyErr β) : List α → Except PyErr (List β)
  | [] => .ok []
  | a :: as => do
    let b ← f a
    let bs ← exMapM f as
    .ok (b :: bs)

/-- One axis of a v1.0 schema line (UDFDecoder.py line 78): evaluates, in
Python argument order, `int(vals[0])`, `vals[1]`,
`data_types[axis_names.index(axis_name)].strip()`, `float(vals[5])`, then
calls Schema.__init__.  The tag `int(vals[0])` is passed as the `name`
parameter of the refactored eight-parameter constructor, so the final call
raises AttributeError on str.strip. -/
def v10Axis (vals axis_names data_types : List String) (size : Int)
    (axis_name : String) : Except PyErr Schema := do
  let tag ← pyInt (← pyIndex vals 0)
  let nm ← pyIndex vals 1
  let d ← pyIndex data_types (listIndexOf axis_names axis_name)
  let sf ← pyFloat (← pyIndex vals 5)
  Schema.init (.int tag) (.str nm) (.int size) (.str (pyStrip d)) (.str axis_name)
    (.float sf) (.int (-1)) (.str "na")

/-- One v1.0 schema line (UDFDecoder.py lines 72-78): split on a colon, read
the axis-name and type lists, compute `size = int(int(vals[2]) /
len(data_types))` (float division truncated by `int`, exact here), then build
one Schema per axis name. -/
def v10Line (line : String) : Except PyErr (List Schema) := do
  let vals := pySplit line ":"
  let axis_names := pySplit (← pyIndex vals 4) ","
  let data_types := pySplit (← pyIndex vals 3) ","
  let ev ← pyInt (← pyIndex vals 2)
  let size := Int.tdiv ev (Int.ofNat data_types.length)
  exMapM (v10Axis vals axis_names data_types size) axis_names

/-- One axis of a v1.1 schema line (UDFDecoder.py line 89): like `v10Axis`
with a parsed sampling rate and the properties list. -/
def v11Axis (vals axis_names data_types : List String) (size : Int)
    (properties : List String) (axis_name : String) : Except PyErr Schema := do
  let tag ← pyInt (← pyIndex vals 0)
  let nm ← pyIndex vals 1
  let d ← pyIndex data_types (listIndexOf axis_names axis_name)
  let sf ← pyFloat (← pyIndex vals 5)
  let sr ← pyFloat (← pyIndex vals 6)
  Schema.init (.int tag) (.str nm) (.int size) (.str (pyStrip d)) (.str axis_name)
    (.float sf) (.float sr) (.strList properties)

/-- One v1.1 schema line (UDFDecoder.py lines 81-89). -/
def v11Line (line : String) : Except PyErr (List Schema) := do
  let vals := pySplit line ":"
  let axis_names := pySplit (← pyIndex vals 4) ","
  let data_types := pySplit (← pyIndex vals 3) ","
  let ev ← pyInt (← pyIndex vals 2)
  let size := Int.tdiv ev (Int.ofNat data_types.length)
  let properties := pySplit (← pyIndex vals 7) ","
  exMapM (v11Axis vals axis_names data_types size properties) axis_names

/-- All schema lines of a header, appended in line order into one list. -/
def headerLines (f : String → Except PyErr (List Schema)) :
    List String → Except PyErr (List Schema)
  | [] => .ok []
  | l :: rest => do
    let s ← f l
    let r ← headerLines f rest
    .ok (s ++ r)

/-- UDFDecoder.__header_from_byte_array (lines 59-94): decode the pre-
terminator slice as UTF-8, split on CRLF, pop the version line, then parse
every schema line.  The returned cursor is `len(file_blob)` for v1.0 and
`len(file_blob) + 6` for v1.1 (`file_blob` being the slice that was passed
in).  An unsupported version only prints a message and returns no schemata
with cursor 0. -/
def header_from_byte_array (file_blob : List Nat) :
    Except PyErr (List Schema × Nat) := do
  let text ← asciiDecode file_blob
  let variable_header := pySplit text "\r\n"
  let version := variable_header.headD ""
  let rest := variable_header.tail
  if version = "1.0" then do
    let schemata ← headerLines v10Line rest
    .ok (schemata, file_blob.length)
  else if version = "1.1" then do
    let schemata ← headerLines v11Line rest
    .ok (schemata, file_blob.length + 6)
  else
    .ok ([], 0)

/-- UDFDecoder.__values_from_byte_array main loop (lines 112-144), dispatching
on the byte at the cursor:
* 0xF0/0xF1: read 8 bytes as a little-endian uint64 (struct.error when fewer
  than 8 remain), append its decimal string to timestamps and None to labels,
  advance by 9;
* 0xF8: slice 16 bytes; `struct.unpack("<s", ...)` needs exactly 1 byte, so
  it raises struct.error unless exactly one byte remains, in which case the
  assignment `labels[len(labels)] = ...` raises IndexError;
* any other byte: the condition on line 124 evaluates `schema.get_index()`
  for every schema, a method the refactored Schema class no longer has, so a
  non-empty schemata list raises AttributeError; with no schemata the final
  branch raises the generic read exception.
The fuel argument only bounds the recursion; with fuel above the blob length
the fuel-0 case is unreachable because each loop step consumes 9 bytes. -/
def valuesLoop (blob : List Nat) (schemata : List Schema) :
    Nat → Nat → List String → List (Option String) →
    Except PyErr (List String × List (Option String))
  | 0, _, _, _ => .error (.exception "loop fuel exhausted")
  | fuel + 1, cursor, timestamps, labels =>
    if cursor < blob.length then
      let b := blob.getD cursor 0
      if b = 0xF0 ∨ b = 0xF1 then
        let timestamp_bytes := (blob.drop (cursor + 1)).take 8
        if timestamp_bytes.length = 8 then
          valuesLoop blob schemata fuel (cursor + 9)
            (timestamps ++ [toString (leNat timestamp_bytes)])
            (labels ++ [Option.none])
        else .error .structError
      else if b = 0xF8 then
        let label_bytes := (blob.drop (cursor + 1)).take 16
        if label_bytes.length = 1 then .error .indexError
        else .error .structError
      else if schemata.isEmpty then .error (.exception pyReadErrMsg)
      else .error (.attributeError "get_index")
    else .ok (timestamps, labels)

/-- UDFDecoder.__values_from_byte_array (lines 96-147): run the record loop,
then drop schemata whose values dict is empty (get_amount_of_values = 0). -/
def values_from_byte_array (blob : List Nat) (cursor : Nat)
    (schemata : List Schema) :
    Except PyErr (List String × List (Option String) × List Schema) := do
  let (timestamps, labels) ← valuesLoop blob schemata (blob.length + 1) cursor [] []
  .ok (timestamps, labels,
       schemata.filter (fun s => 0 < s.get_amount_of_values))

/-- A pyarrow field: name, logical type, and the scaling_factor metadata
entry.  The source stores the factor as the string `str(factor)` and parses
it back with `float(...)` at scaling time; that round trip is the identity,
so the model keeps the numeric value. -/
structure PaField where
  name : String
  dtype : PaType
  scalingFactor : ℚ
  deriving DecidableEq, Repr

/-- A pyarrow schema: ordered fields plus string-keyed table metadata. -/
structure PaSchema where
  fields : List PaField
  metadata : List (String × String)
  deriving DecidableEq, Repr

/-- A pyarrow table: its schema and one value list per column (None cells are
`none`). -/
structure PaTable where
  schema : PaSchema
  columns : List (List (Option PyVal))
  deriving DecidableEq, Repr

/-- Ordered-dict update, as for Python dict assignment `d[k] = v`. -/
def dictSet (d : List (String × String)) (k v : String) :
    List (String × String) :=
  if d.any (fun p => p.1 = k) then
    d.map (fun p => if p.1 = k then (p.1, v) else p)
  else d ++ [(k, v)]

/-- Ordered-dict lookup. -/
def dictLookup (d : List (String × String)) (k : String) : Option String :=
  (d.find? (fun p => p.1 = k)).map (fun p => p.2)

/-- pa.Table.from_arrays(arrays, schema): requires one array per schema field
and equal column lengths (pyarrow value/type conformance checks beyond that
are not modelled). -/
def paTableFromArrays (arrays : List (List (Option PyVal)))
    (schema : PaSchema) : Except PyErr PaTable :=
  if arrays.length = schema.fields.length ∧
     arrays.all (fun a => a.length = (arrays.headD []).length) then
    .ok { schema := schema, columns := arrays }
  else .error (.valueError "from_arrays")

/-- The axis-name string used in `<sensor>.<axis>`: Python string
concatenation with a non-string raises TypeError. -/
def pyValAxisStr : PyVal → Except PyErr String
  | .str a => .ok a
  | _ => .error (.typeError "can only concatenate str to str")

/-- The pyarrow type of a registry lookup result: a None result makes
pa.lib.field raise. -/
def paTypeOf : Option PaType → Except PyErr PaType
  | some t => .ok t
  | _ => .error (.typeError "DataType expected, got NoneType")

/-- The numeric value of the scaling factor stored in the field metadata:
the source stores str(factor) and parses it back with float(); that round
trip is collapsed to the numeric value (a non-numeric factor is not
modelled). -/
def pyValToFloat : PyVal → Except PyErr ℚ
  | .float q => .ok q
  | .int i => .ok (i : ℚ)
  | _ => .error (.typeError "scaling factor")

/-- The data field one Schema contributes to the pyarrow schema
(UDFDecoder.py line 222): name `<sensor>.<axis>`, the registry pyarrow type,
and the scaling factor as metadata. -/
def schemaField (s : Schema) : Except PyErr PaField := do
  let axis ← pyValAxisStr s.axisName
  let pt ← paTypeOf s.get_datatype_for_pyarrow_lib
  let sf ← pyValToFloat s.scalingFactor
  .ok { name := s.name ++ "." ++ axis, dtype := pt, scalingFactor := sf }

/-- The time field inserted at position 0 (UDFDecoder.py lines 223-226):
uint64 for the "ns" time format, float64 otherwise. -/
def timeFieldFor (time_format : String) : PaField :=
  { name := "Time in " ++ time_format,
    dtype := if time_format = "ns" then .uint64 else .float64,
    scalingFactor := 1 }

/-- The Labels field inserted at position 1 (UDFDecoder.py line 227). -/
def labelsFieldPa : PaField :=
  { name := "Labels", dtype := .utf8, scalingFactor := 1 }

/-- UDFDecoder.__make_pyarrow_schema (lines 208-228): one field per schema in
list order, then insert the time field at position 0 and the Labels field at
position 1. -/
def make_pyarrow_schema (schemata : List Schema) (time_format : String) :
    Except PyErr PaSchema := do
  let data_fields ← exMapM schemaField schemata
  .ok { fields := timeFieldFor time_format :: labelsFieldPa :: data_fields,
        metadata := [] }

/-- Dict lookup in a Schema values/indices dict (Python `d[key]`). -/
def dictGetPy (d : List (PyVal × List PyVal)) (k : PyVal) :
    Except PyErr (List PyVal) :=
  match d.find? (fun p => p.1 = k) with
  | some p => .ok p.2
  | none => .error .keyError

/-- The per-schema fill loop of UDFDecoder.__make_pyarrow_table (lines
243-245).  `enumerate` over the values dict yields (position, key) pairs, so
with a non-empty dict the first iteration evaluates
`get_timestamp_indices()[0]`: a missing int key 0 raises KeyError, and a
present one returns a list, which the list-subscript assignment
`value_list[...] = value` rejects with TypeError.  An empty dict leaves the
column of Nones untouched. -/
def fillColumn (s : Schema) (col : List (Option PyVal)) :
    Except PyErr (List (Option PyVal)) :=
  match s.values with
  | [] => .ok col
  | _ :: _ =>
    match dictGetPy s.timeStampIndices (.int 0) with
    | .ok _ => .error (.typeError "list indices must be integers or slices, not list")
    | .error e => .error e

/-- UDFDecoder.__make_pyarrow_table (lines 230-251): a column of Nones per
schema, the fill loop, then insert the timestamp column at 0 and the labels
column at 1 and build the table. -/
def make_pyarrow_table (pyarrow_schema : PaSchema) (schemata : List Schema)
    (time_stamps : List Int) (labels : List (Option String)) :
    Except PyErr PaTable := do
  let base := schemata.map
    (fun _ => List.replicate time_stamps.length (Option.none : Option PyVal))
  let filled ← exMapM (fun p => fillColumn p.1 p.2) (schemata.zip base)
  let tsCol := time_stamps.map (fun v => some (PyVal.int v))
  let lbCol := labels.map (fun l => l.map PyVal.str)
  paTableFromArrays (tsCol :: lbCol :: filled) pyarrow_schema

/-- The header slice passed to the header parser by read_bin_file (line 271):
everything before the first CRLFCRLF; Python slicing with the -1 of a failed
find drops the last byte instead. -/
def headerSlice (blob : List Nat) : List Nat :=
  match bytesFind blob [13, 10, 13, 10] with
  | some i => blob.take i
  | none => blob.dropLast

/-- UDFDecoder.read_bin_file (lines 253-280) from the point where the file
bytes are in memory, for a decoder constructed with the default "ns" time
format: header parse on the pre-terminator slice, body parse from the
returned cursor, `int(...)` on each timestamp string, pyarrow schema with
table metadata replaced by {"Was Scaled": "False"}, then the table.  The
path/IO validation that precedes this in the source is outside the model. -/
def read_bin_file (blob : List Nat) : Except PyErr PaTable := do
  let (schemata, end_of_header) ← header_from_byte_array (headerSlice blob)
  let (time_stamps, labels, schemata2) ←
    values_from_byte_array blob end_of_header schemata
  let tsInts ← exMapM pyInt time_stamps
  let pschema ← make_pyarrow_schema schemata2 "ns"
  let pschema2 : PaSchema :=
    { pschema with metadata := [("Was Scaled", "False")] }
  make_pyarrow_table pschema2 schemata2 tsInts labels

/-- One cell of the scaling loop (UDFDecoder.py lines 201-203): a None cell
is skipped; a numeric cell is multiplied by the scaling factor, which in
Python promotes the result to float; multiplying a string or list by a float
raises TypeError. -/
def scaleCellM (sf : ℚ) : Option PyVal → Except PyErr (Option PyVal)
  | Option.none => .ok Option.none
  | some (.int i) => .ok (some (.float ((i : ℚ) * sf)))
  | some (.float q) => .ok (some (.float (q * sf)))
  | some (.floatBits b) => .ok (some (.floatBits b))
  | some (.str m) => .error (.typeError ("cannot multiply str " ++ m))
  | some (.bytes _) => .error (.typeError "cannot multiply bytes")
  | some (.strList _) => .error (.typeError "cannot multiply list")

/-- The column loop `for value_list_index in range(1, len(value_lists))` of
UDFDecoder.__scale_values (lines 200-203): column 0 is left untouched, every
later column is rewritten cell by cell with the scaling factor drawn from the
field at the same index of the new schema. -/
def scaleColumns (fields2 : List PaField) :
    Nat → List (List (Option PyVal)) → Except PyErr (List (List (Option PyVal)))
  | _, [] => .ok []
  | i, col :: rest => do
    let col2 ←
      if i = 0 then .ok col
      else do
        let fld ← pyIndex fields2 i
        exMapM (scaleCellM fld.scalingFactor) col
    let rest2 ← scaleColumns fields2 (i + 1) rest
    .ok (col2 :: rest2)

/-- UDFDecoder.__scale_values (lines 181-206) for the default "ns" time
format: set the table metadata entry "Was Scaled" to "True"; build the new
field list as the old field 0 followed by every field whose name is not
"Time in ns" with its type replaced by float64 (note that this includes the
Labels field); multiply every non-None cell of every column except column 0
by its column's scaling factor; rebuild the table. -/
def scale_values (t : PaTable) : Except PyErr PaTable := do
  let pyarrow_schema := t.schema
  let metadata := dictSet pyarrow_schema.metadata "Was Scaled" "True"
  let f0 ← match pyarrow_schema.fields with
    | [] => .error .indexError
    | f :: _ => .ok f
  let data_fields := f0 ::
    (pyarrow_schema.fields.filter (fun f => f.name ≠ "Time in ns")).map
      (fun f => { f with dtype := PaType.float64 })
  let pyarrow_schema2 : PaSchema := { fields := data_fields, metadata := metadata }
  let value_lists ← scaleColumns pyarrow_schema2.fields 0 t.columns
  paTableFromArrays value_lists pyarrow_schema2

/-- The per-axis width computation of the v1.0 header parser (UDFDecoder.py
lines 73-78), paired with each axis's stripped type mnemonic: every axis of a
line receives the same width `int(int(vals[2]) / len(data_types))`, the width
the body parser would later consume per value (Schema.get_size_in_bytes).
It is embedded separately from `v10Line` because the Schema construction that
follows it on line 78 always raises (the tag int is passed as the name), so
the computed widths are not observable through the full header parser. -/
def v10LineAxisWidths (line : String) : Except PyErr (List (String × Int)) := do
  let vals := pySplit line ":"
  let axis_names := pySplit (← pyIndex vals 4) ","
  let data_types := pySplit (← pyIndex vals 3) ","
  let ev ← pyInt (← pyIndex vals 2)
  let size := Int.tdiv ev (Int.ofNat data_types.length)
  exMapM (fun axis_name => do
    let d ← pyIndex data_types (listIndexOf axis_names axis_name)
    .ok (pyStrip d, size)) axis_names

/-- Wire widths of the UDF type mnemonics as the specification's TypeRegistry
table states them (spec section 4.1).  The source registry in DataTypes.py
records struct formats only; this definition follows the specification's
words and exists to be compared with what the source computes. -/
def specWireWidth : String → Option Nat
  | "s8" => some 1 | "u8" => some 1
  | "s16" => some 2 | "u16" => some 2
  | "s32" => some 4 | "u24" => some 3 | "u32" => some 4
  | "s64" => some 8 | "u64" => some 8
  | "f" => some 4 | "d" => some 8
  | "s" => some 16 | "st" => some 16
  | _ => Option.none

/-- struct.unpack with one native-size format character on a little-endian
platform, for the formats in the DataTypes.py registry: the buffer length
must equal the format size exactly; integer formats decode little-endian with
the format's signedness; "f"/"d" keep the raw bit pattern (IEEE decoding is
not modelled); "s" is a single byte. -/
def structUnpack (fmt : String) (bs : List Nat) : Except PyErr PyVal :=
  if fmt = "b" then
    if bs.length = 1 then .ok (.int (toSigned 1 (leNat bs))) else .error .structError
  else if fmt = "B" then
    if bs.length = 1 then .ok (.int (leNat bs)) else .error .structError
  else if fmt = "h" then
    if bs.length = 2 then .ok (.int (toSigned 2 (leNat bs))) else .error .structError
  else if fmt = "H" then
    if bs.length = 2 then .ok (.int (leNat bs)) else .error .structError
  else if fmt = "i" then
    if bs.length = 4 then .ok (.int (toSigned 4 (leNat bs))) else .error .structError
  else if fmt = "I" then
    if bs.length = 4 then .ok (.int (leNat bs)) else .error .structError
  else if fmt = "q" then
    if bs.length = 8 then .ok (.int (toSigned 8 (leNat bs))) else .error .structError
  else if fmt = "Q" then
    if bs.length = 8 then .ok (.int (leNat bs)) else .error .structError
  else if fmt = "f" then
    if bs.length = 4 then .ok (.floatBits (leNat bs)) else .error .structError
  else if fmt = "d" then
    if bs.length = 8 then .ok (.floatBits (leNat bs)) else .error .structError
  else if fmt = "s" then
    if bs.length = 1 then .ok (.bytes bs) else .error .structError
  else .error .structError

/-- The value decode of one axis slice in the body parser (UDFDecoder.py
lines 131-139): `value_bytes` is the slice of get_size_in_bytes bytes; when
it has exactly 3 bytes the u24 hack appends a 0x00 most-significant byte;
then struct.unpack runs with the schema's struct format.  In the program as
written this code is unreachable (line 124 raises AttributeError first); it
is embedded as a fragment because it defines the wire decoding the claims
describe. -/
def decodeAxisValue (structFmt : String) (value_bytes : List Nat) :
    Except PyErr PyVal :=
  let vb := if value_bytes.length = 3 then value_bytes ++ [0] else value_bytes
  structUnpack structFmt vb

/-
Helper lemmas about the Except monad and the embedded combinators, shared by
several of the claim theorems below.
-/

theorem except_bind_error {α β : Type} {x : Except PyErr α}
    {f : α → Except PyErr β}
    (h : ∀ a, x = .ok a → ∃ e, f a = .error e) :
    ∃ e, (x >>= f) = .error e := by
  cases x with
  | error e => exact ⟨e, rfl⟩
  | ok a => exact h a rfl

theorem except_bind_ok {α β : Type} {x : Except PyErr α}
    {f : α → Except PyErr β} {b : β}
    (h : (x >>= f) = .ok b) : ∃ a, x = .ok a ∧ f a = .ok b := by
  cases x with
  | error e => exact absurd h (by simp [Bind.bind, Except.bind])
  | ok a => exact ⟨a, rfl, h⟩

theorem splitGo_ne_nil (p : List Char) :
    ∀ (fuel : Nat) (cs acc : List Char), splitGo p fuel cs acc ≠ [] := by
  intro fuel
  induction fuel with
  | zero => intro cs acc; cases cs <;> simp [splitGo]
  | succ n ih =>
    intro cs acc
    cases cs with
    | nil => simp [splitGo]
    | cons c cs =>
      simp only [splitGo]
      split
      · simp
      · exact ih cs (c :: acc)

theorem pySplit_ne_nil (s sep : String) : pySplit s sep ≠ [] := by
  unfold pySplit
  intro h
  exact splitGo_ne_nil sep.data s.data.length s.data []
    (List.map_eq_nil_iff.mp h)

theorem exMapM_ok_mem {α β : Type} {f : α → Except PyErr β} :
    ∀ {l : List α} {L : List β}, exMapM f l = .ok L →
      ∀ b ∈ L, ∃ a, f a = .ok b := by
  intro l
  induction l with
  | nil =>
    intro L h b hb
    simp only [exMapM] at h
    cases h
    simp at hb
  | cons a as ih =>
    intro L h b hb
    simp only [exMapM] at h
    obtain ⟨b0, hb0, h2⟩ := except_bind_ok h
    obtain ⟨bs, hbs, h3⟩ := except_bind_ok h2
    cases h3
    cases hb with
    | head => exact ⟨a, hb0⟩
    | tail _ hmem => exact ih hbs b hmem

theorem exMapM_length {α β : Type} {f : α → Except PyErr β} :
    ∀ {l : List α} {L : List β}, exMapM f l = .ok L → L.length = l.length := by
  intro l
  induction l with
  | nil => intro L h; simp only [exMapM] at h; cases h; rfl
  | cons a as ih =>
    intro L h
    simp only [exMapM] at h
    obtain ⟨b0, hb0, h2⟩ := except_bind_ok h
    obtain ⟨bs, hbs, h3⟩ := except_bind_ok h2
    cases h3
    simp [ih hbs]

theorem exMapM_get? {α β : Type} {f : α → Except PyErr β} :
    ∀ {l : List α} {L : List β}, exMapM f l = .ok L →
      ∀ i a, l.get? i = some a → ∃ b, L.get? i = some b ∧ f a = .ok b := by
  intro l
  induction l with
  | nil => intro L h i a ha; simp at ha
  | cons x xs ih =>
    intro L h i a ha
    simp only [exMapM] at h
    obtain ⟨b0, hb0, h2⟩ := except_bind_ok h
    obtain ⟨bs, hbs, h3⟩ := except_bind_ok h2
    cases h3
    cases i with
    | zero =>
      simp only [List.get?_cons_zero] at ha
      cases ha
      exact ⟨b0, rfl, hb0⟩
    | succ j =>
      simp only [List.get?_cons_succ] at ha ⊢
      exact ih hbs j a ha

/-
Concrete inputs used by the claim theorems.
-/

/-- The scenario S1 input: v1.0 header "1.0CRLF1:temp:2:s16:x:0.1CRLFCRLF"
followed by a timestamp record (0xF0, eight zero bytes) and the event record
0x01 0x10 0x27. -/
def s1blob : List Nat :=
  asciiBytes "1.0\r\n1:temp:2:s16:x:0.1\r\n\r\n" ++
  [0xF0, 0, 0, 0, 0, 0, 0, 0, 0, 0x01, 0x10, 0x27]

/-- C1: the specification says decoding the S1 input succeeds with one row
(Time in ns = 0, Labels null, temp.x = 10000) and that scaling then yields
temp.x = 1000.0.  The code instead raises while parsing the header: the
schema line constructor call passes the tag `int(vals[0])` as the `name`
parameter of the refactored Schema.__init__, whose `name.strip()` raises
AttributeError on an int, so no table is ever built and the scaling pass is
never reached.  This theorem evaluates the decoder at the S1 input. -/
theorem c1_s1_decode_raises_attribute_error :
    read_bin_file s1blob = .error (.attributeError "strip") := by rfl

/-- The scenario S4 body: a timestamp record followed by a 0xF8 label record
carrying "note" padded with NUL bytes to 16 bytes. -/
def s4blob : List Nat :=
  [0xF0, 0, 0, 0, 0, 0, 0, 0, 0, 0xF8] ++ asciiBytes "note" ++
  List.replicate 12 0

/-- C4: the specification says a 0xF8 record consumes 1 + 16 bytes, trims the
NUL padding and overwrites the last Labels entry.  The code instead unpacks
the 16-byte slice with the one-byte struct format "<s", which raises
struct.error; had it not raised, the assignment `labels[len(labels)] = ...`
is an out-of-range list write (IndexError) and the cursor advance is 8, not
16.  This theorem evaluates the body parser at the S4 body. -/
theorem c4_label_record_raises_struct_error :
    values_from_byte_array s4blob 0 [] = .error .structError := by rfl

/-- A v1.0 file with an empty schema list, whose body is a single well-formed
timestamp record placed immediately after the header terminator. -/
def c5blob : List Nat :=
  asciiBytes "1.0\r\n\r\n" ++ [0xF0, 0, 0, 0, 0, 0, 0, 0, 0]

/-- C5: the specification says body_start_offset is the position of the byte
immediately after the CRLFCRLF terminator (index 7 here) plus a further
6-byte skip for v1.1 only.  The header parser is handed the slice before the
terminator and returns `len(slice)` - the index of the terminator itself
(3 here), 4 bytes early - so body parsing starts on the terminator's CR byte
and the decoder rejects this well-formed file with the generic read
exception instead of reading the timestamp at index 7.  (For v1.1 the code
returns `len(slice) + 6`, also not the position after the terminator plus
6.) -/
theorem c5_body_offset_is_terminator_index :
    header_from_byte_array (asciiBytes "1.0") = .ok ([], 3) ∧
    headerSlice c5blob = asciiBytes "1.0" ∧
    read_bin_file c5blob = .error (.exception pyReadErrMsg) := ⟨rfl, rfl, rfl⟩

/-- The empty pyarrow table the decoder produces for an empty input blob. -/
def emptyTable : PaTable :=
  { schema :=
      { fields :=
          [ { name := "Time in ns", dtype := .uint64, scalingFactor := 1 },
            { name := "Labels", dtype := .utf8, scalingFactor := 1 } ],
        metadata := [("Was Scaled", "False")] },
    columns := [[], []] }

/-- C6: the specification says any version string other than "1.0"/"1.1"
fails with an UnsupportedVersion error surfaced unchanged, producing no
table.  The code only prints "Unsupported UDF Schema version" and continues
with cursor 0 and no schemata: for the input "2.0CRLFCRLF" the body parser
then trips over the header bytes and raises the generic read exception (not
a version error), and for the empty blob (version string "") the decode
even succeeds and produces an empty table. -/
theorem c6_unsupported_version_not_surfaced :
    read_bin_file (asciiBytes "2.0\r\n\r\n") = .error (.exception pyReadErrMsg) ∧
    read_bin_file [] = .ok emptyTable := ⟨rfl, rfl⟩

/-- C10: the u24 decode path: a 3-byte slice gets a 0x00 most-significant
byte appended and is then unpacked with the registry's 4-byte unsigned
little-endian format "I", giving b0 + 256*b1 + 65536*b2.  (In the program as
written this code is dead - line 124 raises AttributeError first - but the
fragment is exactly lines 131-139 of UDFDecoder.py.) -/
theorem c10_u24_zero_extends_little_endian (b0 b1 b2 : Nat)
    (_h0 : b0 < 256) (_h1 : b1 < 256) (_h2 : b2 < 256) :
    decodeAxisValue "I" [b0, b1, b2] =
      .ok (.int ((b0 + 256 * b1 + 65536 * b2 : Nat) : Int)) := by
  have heval : decodeAxisValue "I" [b0, b1, b2] =
      .ok (.int ((leNat [b0, b1, b2, 0] : Nat) : Int)) := rfl
  have harith : leNat [b0, b1, b2, 0] = b0 + 256 * b1 + 65536 * b2 := by
    simp only [leNat]; ring
  rw [heval, harith]

/-- Witness for C10 at the specification's bytes 0xAA 0xBB 0xCC: the decoded
uint32 is 0x00CCBBAA = 13417386. -/
theorem c10_u24_witness :
    decodeAxisValue "I" [0xAA, 0xBB, 0xCC] = .ok (.int 13417386) :=
  c10_u24_zero_extends_little_endian 0xAA 0xBB 0xCC
    (by decide) (by decide) (by decide)

/-
Claim C2: the schema-line and body machinery can never record a sensor
event.  The lemmas below show that parsing any schema line raises: the
constructor call on UDFDecoder.py lines 78/89 passes the tag int where the
refactored Schema.__init__ expects the name string, so even before the
two-argument add_value/add_timestamp_index methods could be called with one
argument, every decode with a declared sensor dies in the header parser.
-/

theorem v10Axis_isError (vals axis_names data_types : List String)
    (size : Int) (axis_name : String) :
    ∃ e, v10Axis vals axis_names data_types size axis_name = .error e := by
  unfold v10Axis
  apply except_bind_error; intro s0 _
  apply except_bind_error; intro tag _
  apply except_bind_error; intro nm _
  apply except_bind_error; intro d _
  apply except_bind_error; intro s5 _
  apply except_bind_error; intro sf _
  exact ⟨.attributeError "strip", rfl⟩

theorem v11Axis_isError (vals axis_names data_types : List String)
    (size : Int) (properties : List String) (axis_name : String) :
    ∃ e, v11Axis vals axis_names data_types size properties axis_name
      = .error e := by
  unfold v11Axis
  apply except_bind_error; intro s0 _
  apply except_bind_error; intro tag _
  apply except_bind_error; intro nm _
  apply except_bind_error; intro d _
  apply except_bind_error; intro s5 _
  apply except_bind_error; intro sf _
  apply except_bind_error; intro s6 _
  apply except_bind_error; intro sr _
  exact ⟨.attributeError "strip", rfl⟩

theorem v10Line_isError (line : String) : ∃ e, v10Line line = .error e := by
  unfold v10Line
  apply except_bind_error; intro s4 _
  apply except_bind_error; intro s3 _
  apply except_bind_error; intro s2 _
  apply except_bind_error; intro ev _
  obtain ⟨a, rest, hsplit⟩ :=
    List.exists_cons_of_ne_nil (pySplit_ne_nil s4 ",")
  rw [hsplit]
  simp only [exMapM]
  apply except_bind_error; intro b hb
  obtain ⟨e, he⟩ := v10Axis_isError (pySplit line ":")
    (a :: rest) (pySplit s3 ",")
    (Int.tdiv ev (Int.ofNat (pySplit s3 ",").length)) a
  rw [he] at hb
  cases hb

theorem v11Line_isError (line : String) : ∃ e, v11Line line = .error e := by
  unfold v11Line
  apply except_bind_error; intro s4 _
  apply except_bind_error; intro s3 _
  apply except_bind_error; intro s2 _
  apply except_bind_error; intro ev _
  apply except_bind_error; intro s7 _
  obtain ⟨a, rest, hsplit⟩ :=
    List.exists_cons_of_ne_nil (pySplit_ne_nil s4 ",")
  rw [hsplit]
  simp only [exMapM]
  apply except_bind_error; intro b hb
  obtain ⟨e, he⟩ := v11Axis_isError (pySplit line ":")
    (a :: rest) (pySplit s3 ",")
    (Int.tdiv ev (Int.ofNat (pySplit s3 ",").length)) (pySplit s7 ",") a
  rw [he] at hb
  cases hb

theorem headerLines_cons_isError (f : String → Except PyErr (List Schema))
    (hf : ∀ l, ∃ e, f l = .error e) (l : String) (rest : List String) :
    ∃ e, headerLines f (l :: rest) = .error e := by
  simp only [headerLines]
  apply except_bind_error; intro s hs
  obtain ⟨e, he⟩ := hf l
  rw [he] at hs
  cases hs

theorem except_ok_bind {α β : Type} (a : α) (f : α → Except PyErr β) :
    (Except.ok a >>= f) = f a := rfl

theorem header_isError (fb : List Nat) (text : String)
    (hdec : asciiDecode fb = .ok text)
    (hver : (pySplit text "\r\n").headD "" = "1.0" ∨
            (pySplit text "\r\n").headD "" = "1.1")
    (hlines : (pySplit text "\r\n").tail ≠ []) :
    ∃ e, header_from_byte_array fb = .error e := by
  obtain ⟨l, rest, htail⟩ := List.exists_cons_of_ne_nil hlines
  unfold header_from_byte_array
  rw [hdec, except_ok_bind]
  dsimp only
  rcases hver with h | h
  · rw [h, if_pos rfl, htail]
    apply except_bind_error; intro s hs
    obtain ⟨e, he⟩ :=
      headerLines_cons_isError v10Line v10Line_isError l rest
    rw [he] at hs
    cases hs
  · rw [h, if_neg (by decide), if_pos rfl, htail]
    apply except_bind_error; intro s hs
    obtain ⟨e, he⟩ :=
      headerLines_cons_isError v11Line v11Line_isError l rest
    rw [he] at hs
    cases hs

/-- C2: for every input that declares a sensor (the header decodes with a
supported version "1.0"/"1.1" and at least one schema line - in particular
for every input whose body contains an event record with a recognised sensor
tag, since a recognised tag requires a declared sensor), decoding raises an
exception instead of returning a table.  The claim's cited arity facts are
part of the embedding: `Schema.add_value` and `Schema.add_timestamp_index`
take a key and a value/index; the body parser's one-argument calls are never
even reached, because Schema construction already raises in the header parser
(and the body parser's tag test calls the missing `get_index`). -/
theorem c2_decode_with_sensor_always_raises (blob : List Nat) (text : String)
    (hdec : asciiDecode (headerSlice blob) = .ok text)
    (hver : (pySplit text "\r\n").headD "" = "1.0" ∨
            (pySplit text "\r\n").headD "" = "1.1")
    (hlines : (pySplit text "\r\n").tail ≠ []) :
    ∃ e, read_bin_file blob = .error e := by
  obtain ⟨e, he⟩ := header_isError (headerSlice blob) text hdec hver hlines
  refine ⟨e, ?_⟩
  unfold read_bin_file
  rw [he]
  rfl

/-- A v1.0 input whose body holds a timestamp record and one event record
with the declared tag 2, for the C2 witness. -/
def c2blob : List Nat :=
  asciiBytes "1.0\r\n2:accel:4:s32:x:1.0\r\n\r\n" ++
  [0xF0, 0, 0, 0, 0, 0, 0, 0, 0, 0x02, 1, 0, 0, 0]

/-- Witness for C2 at a concrete input with a declared sensor and a matching
event record in the body. -/
theorem c2_witness : ∃ e, read_bin_file c2blob = .error e :=
  c2_decode_with_sensor_always_raises c2blob "1.0\r\n2:accel:4:s32:x:1.0"
    (by decide) (Or.inl (by decide)) (by decide)

/-
Claim C3: strict/lenient truncation handling.
-/

/-- A hand-built Schema for a sensor with tag byte 1 and a single 4-byte s32
axis, as scenario S6 declares (the Schema class itself is constructible with
correct arguments; only the decoder's own constructor call is broken). -/
def c3schema : Schema :=
  { name := "sen", sizeInBytes := .int 4, eventSize := .int 4,
    dataType := .str "s32", axisName := .str "x", scalingFactor := .float 1,
    values := [], timeStampIndices := [], samplingRate := .int (-1),
    properties := .str "na" }

/-- A body with one timestamp record followed by the event tag 1 and a single
byte where the declared axis needs 4: the truncated-event input of S6. -/
def c3blob : List Nat := [0xF0, 0, 0, 0, 0, 0, 0, 0, 0, 0x01, 0xAA]

/-- Counterexample for C3: at the truncated-event input the body parser does
not fail with a TruncatedEvent error, and no strict/lenient mode exists (the
decoder has no such parameter): the moment the cursor reaches the event tag,
evaluating the sensor-tag test calls the missing Schema.get_index and the
parse dies with AttributeError, before truncation could even be noticed;
nothing parsed earlier is returned. -/
theorem c3_truncated_event_raises_attribute_error :
    values_from_byte_array c3blob 0 [c3schema] =
      .error (.attributeError "get_index") := by rfl

/-- C3 amended: whenever the byte at the cursor is not one of the control
tags 0xF0/0xF1/0xF8 and at least one sensor is declared - in particular for
any event record, truncated or not - the body parser raises AttributeError
for the missing Schema.get_index method and returns no partial result.
There is no strict or lenient mode and no TruncatedEvent error in the code;
the unreachable truncation check behind the tag test would merely print
"Size mismatch" and break. -/
theorem c3_amended_event_tag_attribute_error (blob : List Nat) (cursor : Nat)
    (schemata : List Schema)
    (hne : schemata ≠ [])
    (hcur : cursor < blob.length)
    (h0 : blob.getD cursor 0 ≠ 0xF0) (h1 : blob.getD cursor 0 ≠ 0xF1)
    (h8 : blob.getD cursor 0 ≠ 0xF8) :
    values_from_byte_array blob cursor schemata =
      .error (.attributeError "get_index") := by
  unfold values_from_byte_array
  have hloop : valuesLoop blob schemata (blob.length + 1) cursor [] [] =
      .error (.attributeError "get_index") := by
    rw [valuesLoop]
    rw [if_pos hcur, if_neg (not_or.mpr ⟨h0, h1⟩), if_neg h8,
        if_neg (by simp [List.isEmpty_iff, hne])]
  rw [hloop]
  rfl

/-- Witness for C3 amended at a body whose cursor stands on the unknown tag
byte 0x05 with one declared sensor. -/
theorem c3_amended_witness :
    values_from_byte_array [0x05, 0xAA] 0 [c3schema] =
      .error (.attributeError "get_index") :=
  c3_amended_event_tag_attribute_error [0x05, 0xAA] 0 [c3schema]
    (by decide) (by decide) (by decide) (by decide) (by decide)

/-
Claim C7: per-axis byte widths.
-/

/-- Counterexample for C7: for the mixed-width v1.0 schema line
"1:m:6:s16,s32:x,y:1.0" the header assigns BOTH axes the width
int(6 / 2) = 3, whereas the specification's TypeRegistry wire widths are 2
for s16 and 4 for s32; and no width-sum consistency check exists anywhere in
the parser (no MalformedHeader is ever raised).  So the byte width consumed
per axis does not equal the mnemonic's wire width when a sensor mixes
mnemonics of different widths. -/
theorem c7_mixed_widths_counterexample :
    v10LineAxisWidths "1:m:6:s16,s32:x,y:1.0" = .ok [("s16", 3), ("s32", 3)] ∧
    specWireWidth "s16" = some 2 ∧ specWireWidth "s32" = some 4 ∧
    (3 : Int) ≠ 2 ∧ (3 : Int) ≠ 4 := by
  refine ⟨by rfl, by rfl, by rfl, by decide, by decide⟩

/-- C7 amended: the header parser assigns every axis of a schema line one and
the same byte width, namely `int(event_size / number-of-declared-types)`; no
per-type TypeRegistry width is looked up and no event-size consistency check
is performed, so the consumed width agrees with the mnemonic's wire width
only when all axes of the sensor share one width that divides out exactly. -/
theorem c7_amended_uniform_axis_width (line : String)
    (L : List (String × Int))
    (h : v10LineAxisWidths line = .ok L) :
    ∀ p ∈ L, ∀ q ∈ L, p.2 = q.2 := by
  unfold v10LineAxisWidths at h
  obtain ⟨s4, hs4, h⟩ := except_bind_ok h
  obtain ⟨s3, hs3, h⟩ := except_bind_ok h
  obtain ⟨s2, hs2, h⟩ := except_bind_ok h
  obtain ⟨ev, hev, h⟩ := except_bind_ok h
  have hmem := exMapM_ok_mem h
  intro p hp q hq
  obtain ⟨a, ha⟩ := hmem p hp
  obtain ⟨b, hb⟩ := hmem q hq
  obtain ⟨d1, hd1, ha2⟩ := except_bind_ok ha
  obtain ⟨d2, hd2, hb2⟩ := except_bind_ok hb
  cases ha2
  cases hb2
  rfl

/-- Witness for C7 amended at a concrete mixed-width line: both axes carry
the same computed width. -/
theorem c7_amended_witness :
    v10LineAxisWidths "2:mix:6:s16,s32:a,b:1.0" = .ok [("s16", 3), ("s32", 3)] ∧
    ∀ p ∈ [(("s16" : String), (3 : Int)), ("s32", 3)],
      ∀ q ∈ [(("s16" : String), (3 : Int)), ("s32", 3)], p.2 = q.2 :=
  ⟨by rfl, c7_amended_uniform_axis_width "2:mix:6:s16,s32:a,b:1.0" _ (by rfl)⟩

/-
Claim C8: what the scaling pass changes and what it leaves alone.
-/

/-- Numeric-or-None cells: the cells the scaling loop can process without a
Python TypeError. -/
def numCell : Option PyVal → Bool
  | Option.none => true
  | some (.int _) => true
  | some (.float _) => true
  | _ => false

/-- The value a numeric-or-None cell becomes under the scaling loop: None
stays None, a number is multiplied by the factor and becomes a float. -/
def scaleCell (sf : ℚ) : Option PyVal → Option PyVal
  | some (.int i) => some (.float ((i : ℚ) * sf))
  | some (.float q) => some (.float (q * sf))
  | x => x

theorem exMapM_scaleCell (sf : ℚ) :
    ∀ (c : List (Option PyVal)), (∀ x ∈ c, numCell x = true) →
      exMapM (scaleCellM sf) c = .ok (c.map (scaleCell sf)) := by
  intro c
  induction c with
  | nil => intro _; rfl
  | cons x rest ih =>
    intro h
    have hx := h x (List.mem_cons_self x rest)
    have hrest := ih (fun y hy => h y (List.mem_cons_of_mem x hy))
    have hxeval : scaleCellM sf x = .ok (scaleCell sf x) := by
      cases x with
      | none => rfl
      | some v =>
        cases v with
        | int i => rfl
        | float q => rfl
        | str s => simp [numCell] at hx
        | bytes bs => simp [numCell] at hx
        | strList xs => simp [numCell] at hx
        | floatBits b => simp [numCell] at hx
    simp only [exMapM]
    rw [hxeval, except_ok_bind, hrest, except_ok_bind]
    rfl

theorem scaleColumns_shift (fields2 : List PaField) :
    ∀ (cs : List (List (Option PyVal))) (gs : List PaField) (k : Nat),
      k ≠ 0 →
      cs.length = gs.length →
      (∀ j, j < gs.length → fields2.get? (k + j) = gs.get? j) →
      (∀ c ∈ cs, ∀ x ∈ c, numCell x = true) →
      scaleColumns fields2 k cs =
        .ok ((cs.zip gs).map
          (fun p => p.1.map (scaleCell p.2.scalingFactor))) := by
  intro cs
  induction cs with
  | nil => intro gs k _ _ _ _; simp [scaleColumns]
  | cons c cs ih =>
    intro gs k hk hlen hget hnum
    cases gs with
    | nil => simp at hlen
    | cons g gs =>
      have hg : fields2.get? k = some g := by
        have h0 := hget 0 (by simp)
        simpa using h0
      have hpy : pyIndex fields2 k = .ok g := by
        have hg2 : fields2[k]? = some g := by
          simpa [← List.get?_eq_getElem?] using hg
        simp [pyIndex, hg2]
      have hc : exMapM (scaleCellM g.scalingFactor) c =
          .ok (c.map (scaleCell g.scalingFactor)) :=
        exMapM_scaleCell g.scalingFactor c
          (hnum c (List.mem_cons_self c cs))
      have hrest : scaleColumns fields2 (k + 1) cs =
          .ok ((cs.zip gs).map
            (fun p => p.1.map (scaleCell p.2.scalingFactor))) := by
        apply ih gs (k + 1) (by simp)
        · simpa using hlen
        · intro j hj
          have := hget (j + 1) (by simpa using hj)
          have harith : k + (j + 1) = k + 1 + j := by ring
          rw [harith] at this
          simpa using this
        · intro c2 hc2 x hx
          exact hnum c2 (List.mem_cons_of_mem c hc2) x hx
      simp only [scaleColumns]
      rw [if_neg hk, hpy, except_ok_bind, hc, except_ok_bind,
          hrest, except_ok_bind]
      rfl

theorem paTableFromArrays_pos (arrays : List (List (Option PyVal)))
    (schema : PaSchema)
    (h1 : arrays.length = schema.fields.length)
    (h2 : arrays.all (fun a => a.length = (arrays.headD []).length) = true) :
    paTableFromArrays arrays schema = .ok { schema := schema, columns := arrays } := by
  unfold paTableFromArrays
  rw [if_pos ⟨h1, h2⟩]

/-- C8 amended: on a well-formed table (field 0 named "Time in ns", no other
field with that name, one column per field, equal column lengths, and
numeric-or-null cells in every column after column 0 - which holds for every
table the decoder could build, whose Labels cells are all null), the scaling
pass: keeps field 0 and column 0 exactly as they were; sets the table
metadata entry "Was Scaled" to "True"; and rewrites EVERY other field -
including Labels, contrary to the original claim - to logical type float64,
multiplying each non-null cell by its column's scaling factor while null
cells stay null. -/
theorem c8_amended_scale_frame (f0 : PaField) (fs : List PaField)
    (md : List (String × String)) (c0 : List (Option PyVal))
    (cs : List (List (Option PyVal)))
    (hf0 : f0.name = "Time in ns")
    (hfsB : fs.all (fun f => f.name ≠ "Time in ns") = true)
    (hlen : cs.length = fs.length)
    (hclenB : cs.all (fun c => c.length = c0.length) = true)
    (hnumB : cs.all (fun c => c.all numCell) = true) :
    scale_values ⟨⟨f0 :: fs, md⟩, c0 :: cs⟩ =
      .ok ⟨⟨f0 :: fs.map (fun f => { f with dtype := PaType.float64 }),
            dictSet md "Was Scaled" "True"⟩,
           c0 :: (cs.zip fs).map
             (fun p => p.1.map (scaleCell p.2.scalingFactor))⟩ := by
  have hfs : ∀ f ∈ fs, f.name ≠ "Time in ns" := by
    intro f hf
    simpa using List.all_eq_true.mp hfsB f hf
  have hclen : ∀ c ∈ cs, c.length = c0.length := by
    intro c hc
    simpa using List.all_eq_true.mp hclenB c hc
  have hnum : ∀ c ∈ cs, ∀ x ∈ c, numCell x = true := by
    intro c hc
    exact List.all_eq_true.mp (List.all_eq_true.mp hnumB c hc)
  have hfilter : (f0 :: fs).filter (fun f => decide (f.name ≠ "Time in ns"))
      = fs := by
    rw [List.filter_cons]
    simp only [hf0]
    rw [if_neg (by simp)]
    exact List.filter_eq_self.mpr (fun f hf => by simpa using hfs f hf)
  have hshift := scaleColumns_shift
    (f0 :: fs.map (fun f => { f with dtype := PaType.float64 })) cs
    (fs.map (fun f => { f with dtype := PaType.float64 })) 1
    (by simp) (by simpa using hlen)
    (by intro j hj; simp [Nat.add_comm 1 j])
    hnum
  have hzip : ((cs.zip (fs.map (fun f => { f with dtype := PaType.float64 }))).map
      (fun p => p.1.map (scaleCell p.2.scalingFactor))) =
      ((cs.zip fs).map (fun p => p.1.map (scaleCell p.2.scalingFactor))) := by
    rw [List.zip_map_right, List.map_map]
    rfl
  rw [hzip] at hshift
  have hhead : ∀ (F2 : List PaField),
      scaleColumns F2 0 (c0 :: cs) =
        (scaleColumns F2 1 cs >>= fun rest2 => .ok (c0 :: rest2)) := by
    intro F2
    simp only [scaleColumns, if_true]
    rw [except_ok_bind]
  have hA : (c0 :: (cs.zip fs).map
        (fun p => p.1.map (scaleCell p.2.scalingFactor))).length =
      (f0 :: fs.map (fun f => { f with dtype := PaType.float64 })).length := by
    simp [List.length_zip, hlen]
  have hB : ((c0 :: (cs.zip fs).map
        (fun p => p.1.map (scaleCell p.2.scalingFactor))).all
      (fun a => a.length =
        ((c0 :: (cs.zip fs).map
          (fun p => p.1.map (scaleCell p.2.scalingFactor))).headD []).length))
      = true := by
    rw [List.all_eq_true]
    intro a ha
    simp only [List.headD_cons]
    rcases List.mem_cons.mp ha with h | h
    · subst h; simp
    · obtain ⟨p, hp, rfl⟩ := List.mem_map.mp h
      obtain ⟨p1, p2⟩ := p
      have hmem := List.of_mem_zip hp
      simp [hclen p1 hmem.1]
  unfold scale_values
  dsimp only
  rw [except_ok_bind]
  rw [hfilter, hhead, hshift, except_ok_bind]
  exact paTableFromArrays_pos _ _ hA hB

/-- The one-row table the decoder was meant to build for scenario S1: Time
uint64, Labels utf8 (cell null), temp.x int16 = 10000 with scaling factor
0.1. -/
def c8table : PaTable :=
  { schema :=
      { fields :=
          [ { name := "Time in ns", dtype := .uint64, scalingFactor := 1 },
            { name := "Labels", dtype := .utf8, scalingFactor := 1 },
            { name := "temp.x", dtype := .int16, scalingFactor := 1/10 } ],
        metadata := [("Was Scaled", "False")] },
    columns := [[some (.int 0)], [Option.none], [some (.int 10000)]] }

/-- Counterexample for C8: scaling the S1-shaped table does update the
metadata, leave the time column alone, keep nulls null and multiply temp.x
by 0.1 - but it does NOT leave the Labels column's logical type unchanged:
the field loop drops only the field named "Time in ns", so Labels is
promoted to float64 along with the data columns, contradicting the claim
that columns 0 AND 1 keep their logical types. -/
theorem c8_labels_type_promoted_counterexample :
    scale_values c8table =
      .ok { schema :=
              { fields :=
                  [ { name := "Time in ns", dtype := .uint64,
                      scalingFactor := 1 },
                    { name := "Labels", dtype := PaType.float64,
                      scalingFactor := 1 },
                    { name := "temp.x", dtype := PaType.float64,
                      scalingFactor := 1/10 } ],
                metadata := [("Was Scaled", "True")] },
            columns := [[some (.int 0)], [Option.none],
                        [some (.float 1000)]] } ∧
    PaType.float64 ≠ PaType.utf8 := ⟨by decide, by decide⟩

/-- Witness for C8 amended at a two-row table with a null cell in the data
column: the time column and field are untouched, Labels and the data column
are promoted to float64, nulls stay null, and 3 * 2 becomes the float 6. -/
theorem c8_amended_witness :
    scale_values
      { schema :=
          { fields :=
              [ { name := "Time in ns", dtype := .uint64, scalingFactor := 1 },
                { name := "Labels", dtype := .utf8, scalingFactor := 1 },
                { name := "acc.x", dtype := .int32, scalingFactor := 2 } ],
            metadata := [("Was Scaled", "False")] },
        columns := [[some (.int 0), some (.int 5)],
                    [Option.none, Option.none],
                    [some (.int 3), Option.none]] } =
      .ok { schema :=
              { fields :=
                  [ { name := "Time in ns", dtype := .uint64,
                      scalingFactor := 1 },
                    { name := "Labels", dtype := PaType.float64,
                      scalingFactor := 1 },
                    { name := "acc.x", dtype := PaType.float64,
                      scalingFactor := 2 } ],
                metadata := [("Was Scaled", "True")] },
            columns := [[some (.int 0), some (.int 5)],
                        [Option.none, Option.none],
                        [some (.float 6), Option.none]] } :=
  (c8_amended_scale_frame
    { name := "Time in ns", dtype := .uint64, scalingFactor := 1 }
    [ { name := "Labels", dtype := .utf8, scalingFactor := 1 },
      { name := "acc.x", dtype := .int32, scalingFactor := 2 } ]
    [("Was Scaled", "False")]
    [some (.int 0), some (.int 5)]
    [[Option.none, Option.none], [some (.int 3), Option.none]]
    rfl (by decide) rfl (by decide) (by decide)).trans (by decide)

/-
Claim C9: column order.
-/

/-- A hand-built one-axis schema standing for the sensor with tag 1.  The
refactored Schema class no longer records the tag at all (the decoder's own
constructor call passes the tag int as the name and always raises), so the
name encodes which sensor is meant. -/
def sensor1Schema : Schema :=
  { name := "sensor1", sizeInBytes := .int 2, eventSize := .int 2,
    dataType := .str "s16", axisName := .str "x", scalingFactor := .float 1,
    values := [], timeStampIndices := [], samplingRate := .int (-1),
    properties := .str "na" }

/-- The same axis shape for the sensor with tag 2. -/
def sensor2Schema : Schema := { sensor1Schema with name := "sensor2" }

/-- Counterexample for C9: the schema builder lays columns 2..N out in the
order the schemata list hands them over - the header's line order - and
performs no sort: with the tag-2 sensor listed before the tag-1 sensor the
columns come out in that same order, and reversing the input reverses them.
Column order therefore depends on the order of the schema lines, not on
ascending sensor tag (which the refactored Schema does not even store). -/
theorem c9_columns_follow_input_order_counterexample :
    (make_pyarrow_schema [sensor2Schema, sensor1Schema] "ns").map
      (fun S => S.fields.map PaField.name) =
      .ok ["Time in ns", "Labels", "sensor2.x", "sensor1.x"] ∧
    (make_pyarrow_schema [sensor1Schema, sensor2Schema] "ns").map
      (fun S => S.fields.map PaField.name) =
      .ok ["Time in ns", "Labels", "sensor1.x", "sensor2.x"] := ⟨by rfl, by rfl⟩

/-- C9 amended: whenever the schema builder succeeds, column i+2 belongs to
the schemata list's element i (name `<sensor>.<axis>`), i.e. columns 2..N
follow the input order - header line order with axes in declared order -
with no reordering by tag. -/
theorem c9_amended_column_order_is_input_order (schemata : List Schema)
    (S : PaSchema) (h : make_pyarrow_schema schemata "ns" = .ok S) :
    S.fields.length = schemata.length + 2 ∧
    ∀ i s a, schemata.get? i = some s → s.axisName = .str a →
      ∃ f, S.fields.get? (i + 2) = some f ∧ f.name = s.name ++ "." ++ a := by
  unfold make_pyarrow_schema at h
  obtain ⟨dfs, hdfs, h2⟩ := except_bind_ok h
  cases h2
  constructor
  · simp [exMapM_length hdfs]
  · intro i s a hi ha
    obtain ⟨b, hb, hfb⟩ := exMapM_get? hdfs i s hi
    refine ⟨b, ?_, ?_⟩
    · simpa [List.get?_cons_succ] using hb
    · unfold schemaField at hfb
      rw [ha] at hfb
      obtain ⟨a2, ha2, hfb2⟩ := except_bind_ok hfb
      have ha2x : a2 = a := by
        simp only [pyValAxisStr] at ha2
        injection ha2 with ha3
        exact ha3.symm
      subst ha2x
      obtain ⟨pt, hpt, hfb3⟩ := except_bind_ok hfb2
      obtain ⟨sf, hsf, hfb4⟩ := except_bind_ok hfb3
      cases hfb4
      rfl

/-- Witness for C9 amended at the single-sensor list: column 2 is that
sensor's axis field. -/
theorem c9_amended_witness :
    ([timeFieldFor "ns", labelsFieldPa,
      { name := "sensor1.x", dtype := PaType.int16, scalingFactor := 1 }] :
        List PaField).length = [sensor1Schema].length + 2 ∧
    ∀ i s a, [sensor1Schema].get? i = some s → s.axisName = .str a →
      ∃ f, ([timeFieldFor "ns", labelsFieldPa,
        { name := "sensor1.x", dtype := PaType.int16, scalingFactor := 1 }] :
          List PaField).get? (i + 2) = some f ∧
        f.name = s.name ++ "." ++ a :=
  c9_amended_column_order_is_input_order [sensor1Schema]
    { fields := [timeFieldFor "ns", labelsFieldPa,
        { name := "sensor1.x", dtype := PaType.int16, scalingFactor := 1 }],
      metadata := [] }
    (by rfl)
